import Mathlib

/-!
# Verification of the connectly_project logging/configuration slice

Shallow embedding of `singletons/logger_singleton.py` and of the
`ConfigManager` settings store (the latter modelled from the spec, since
`singletons/config_manager.py` is not part of the supplied sources; only its
tests and callers are).

The Python `logging` severity constants used by the code are
`INFO = 20`, `WARNING = 30`, `ERROR = 40`; a record is emitted when its
severity is at or above the logger's current level, and every emitted record
goes to both installed handlers (file and console), whose own levels are left
at NOTSET and therefore never filter.
-/

namespace Connectly

/-- `logging.INFO` -/
def INFO : Nat := 20

/-- `logging.WARNING` -/
def WARNING : Nat := 30

/-- `logging.ERROR` -/
def ERROR : Nat := 40

/-- A Django-style user object; the logger only reads `.username`. -/
structure User where
  username : String
deriving Repr, DecidableEq

/-- The heterogeneous values stored in the `log_data` dicts built by the
logger: strings, integers, optional integers (`status_code`), and optional
strings (`details`). -/
inductive FValue where
  | str : String → FValue
  | int : Int → FValue
  | optInt : Option Int → FValue
  | optStr : Option String → FValue
deriving Repr, DecidableEq

/-- A structured log record: the `log_data` dict (ordered field/value pairs,
as built in the source) together with the severity it was submitted at. -/
structure Record where
  fields : List (String × FValue)
  severity : Nat
deriving Repr, DecidableEq

/-- Association-list lookup, modelling Python `dict` access on the small
literal dicts the code builds. -/
def alookup {α : Type} : List (String × α) → String → Option α
  | [], _ => none
  | (k, v) :: rest, n => if k = n then some v else alookup rest n

/-- The observable state of the `connectly_api` logger after `_initialize`:
its level (`threshold`), and the lines so far written to each of its two
handlers (the `api.log` file handler and the console stream handler). -/
structure LoggerState where
  threshold : Nat
  fileSink : List Record
  consoleSink : List Record
deriving Repr, DecidableEq

/-- The logger state `_initialize` produces: level `logging.INFO`, both
handlers installed and empty. -/
def initLogger : LoggerState := ⟨INFO, [], []⟩

/-- `self.logger.<level>(msg)`: the record is handled (appended to both
sinks) exactly when its severity is at or above the logger's level; the
handlers' own levels are NOTSET, so both always receive a handled record. -/
def logMessage (sev : Nat) (fields : List (String × FValue)) (s : LoggerState) :
    LoggerState :=
  if s.threshold ≤ sev then
    { s with fileSink := s.fileSink ++ [⟨fields, sev⟩],
             consoleSink := s.consoleSink ++ [⟨fields, sev⟩] }
  else s

/-- `user.username if user else 'Anonymous'` (a user object is truthy). -/
def userField : Option User → String
  | some u => u.username
  | none => "Anonymous"

/-- The `log_data` dict built by `log_api_request`. -/
def apiFields (method endpoint : String) (user : Option User)
    (statusCode : Option Int) (ts : String) : List (String × FValue) :=
  [("timestamp", .str ts), ("method", .str method), ("endpoint", .str endpoint),
   ("user", .str (userField user)), ("status_code", .optInt statusCode)]

/-- `if status_code and status_code >= 400`: Python truthiness makes `None`
and `0` fall to the `else` branch; otherwise the comparison decides. -/
def apiSeverity (statusCode : Option Int) : Nat :=
  match statusCode with
  | none => INFO
  | some c => if c ≠ 0 ∧ 400 ≤ c then ERROR else INFO

/-- `log_api_request(method, endpoint, user=None, status_code=None)`.
The wall-clock timestamp is passed in as `ts`. -/
def log_api_request (method endpoint : String) (user : Option User)
    (statusCode : Option Int) (ts : String) (s : LoggerState) : LoggerState :=
  logMessage (apiSeverity statusCode) (apiFields method endpoint user statusCode ts) s

/-- The `log_data` dict built by `log_security_event`. -/
def secFields (eventType details : String) (user : Option User) (ts : String) :
    List (String × FValue) :=
  [("timestamp", .str ts), ("event_type", .str eventType),
   ("details", .str details), ("user", .str (userField user))]

/-- `log_security_event(event_type, details, user=None)`: always submits at
`logging.warning`. -/
def log_security_event (eventType details : String) (user : Option User)
    (ts : String) (s : LoggerState) : LoggerState :=
  logMessage WARNING (secFields eventType details user ts) s

/-- The `log_data` dict built by `log_performance_metric`. -/
def perfFields (metricName : String) (value : FValue) (details : Option String)
    (ts : String) : List (String × FValue) :=
  [("timestamp", .str ts), ("metric", .str metricName), ("value", value),
   ("details", .optStr details)]

/-- `log_performance_metric(metric_name, value, details=None)`: always
submits at `logging.info`. -/
def log_performance_metric (metricName : String) (value : FValue)
    (details : Option String) (ts : String) (s : LoggerState) : LoggerState :=
  logMessage INFO (perfFields metricName value details ts) s

/-- `set_log_level(level)`: `self.logger.setLevel(level)`. -/
def set_log_level (level : Nat) (s : LoggerState) : LoggerState :=
  { s with threshold := level }

/-!
## Construction of the singleton (`LoggerSingleton.__new__`), sequential view

```
def __new__(cls, *args, **kwargs):
    if not cls._instance:
        cls._instance = super(LoggerSingleton, cls).__new__(cls, *args, **kwargs)
        cls._instance._initialize()
    return cls._instance
```

Instances are identified by the allocation counter value at which they were
created (reference identity = identity of that number). `initCount` counts
how many times `_initialize` has run.
-/

/-- The class-level state of `LoggerSingleton`: `cls._instance`, a fresh-id
allocator standing for `super().__new__`, and a count of `_initialize` runs. -/
structure NewState where
  inst : Option Nat
  nextId : Nat
  initCount : Nat
deriving Repr, DecidableEq

/-- The class state before any construction: `_instance = None`. -/
def freshClass : NewState := ⟨none, 0, 0⟩

/-- One sequential (uninterleaved) call of `LoggerSingleton.__new__`:
returns the instance the caller receives and the updated class state. -/
def singletonNew (s : NewState) : Nat × NewState :=
  match s.inst with
  | some i => (i, s)
  | none => (s.nextId, ⟨some s.nextId, s.nextId + 1, s.initCount + 1⟩)

/-- `n` successive constructions `LoggerSingleton()` starting from the fresh
class state; returns the list of instances received, and the class state. -/
def constructMany : Nat → List Nat × NewState
  | 0 => ([], freshClass)
  | n + 1 =>
    let (rs, s) := constructMany n
    let (r, s2) := singletonNew s
    (rs ++ [r], s2)

/-!
## Construction under two concurrent first accesses

`__new__` decomposed into its atomic steps, two threads interleaved by an
explicit schedule. Program counters: 0 = the `if not cls._instance` test,
1 = allocate and store into `cls._instance`, 2 = `cls._instance._initialize()`,
3 = `return cls._instance`, 4 = done.
-/

/-- One thread's progress through `__new__`: program counter and the value
it eventually returns. -/
structure ThreadState where
  pc : Nat
  ret : Option Nat
deriving Repr, DecidableEq

/-- Shared memory of the race: `cls._instance`, the allocation counter
(`nextId` also counts how many instances were ever constructed), and the
ordered list of instance ids on which `_initialize` was run. -/
structure SharedState where
  inst : Option Nat
  nextId : Nat
  inits : List Nat
deriving Repr, DecidableEq

/-- One atomic step of `__new__` by one thread. -/
def stepNew (g : SharedState) (t : ThreadState) : SharedState × ThreadState :=
  match t.pc with
  | 0 =>
    match g.inst with
    | none => (g, ⟨1, t.ret⟩)
    | some _ => (g, ⟨3, t.ret⟩)
  | 1 => (⟨some g.nextId, g.nextId + 1, g.inits⟩, ⟨2, t.ret⟩)
  | 2 =>
    match g.inst with
    | some i => (⟨g.inst, g.nextId, g.inits ++ [i]⟩, ⟨3, t.ret⟩)
    | none => (g, ⟨3, t.ret⟩)
  | 3 => (g, ⟨4, g.inst⟩)
  | _ => (g, t)

/-- The whole two-thread system. -/
structure RaceState where
  shared : SharedState
  t1 : ThreadState
  t2 : ThreadState
deriving Repr, DecidableEq

/-- Both threads poised to run `LoggerSingleton()` on the fresh class. -/
def raceStart : RaceState := ⟨⟨none, 0, []⟩, ⟨0, none⟩, ⟨0, none⟩⟩

/-- Run a schedule: `true` steps thread 1, `false` steps thread 2. -/
def runSched : List Bool → RaceState → RaceState
  | [], s => s
  | b :: rest, s =>
    if b then
      let (g, t) := stepNew s.shared s.t1
      runSched rest ⟨g, t, s.t2⟩
    else
      let (g, t) := stepNew s.shared s.t2
      runSched rest ⟨g, s.t1, t⟩

/-- The serialized schedule: thread 1 runs to completion, then thread 2. -/
def serialSched : List Bool := [true, true, true, true, false, false]

/-- The racy schedule: both threads pass the `if not cls._instance` test
before either stores, then thread 2 finishes, then thread 1. -/
def racySched : List Bool :=
  [true, false, false, false, false, true, true, true]

/-!
## SettingsStore (`ConfigManager`)

`singletons/config_manager.py` is not among the supplied sources (only its
unit tests and its HTTP callers are), so the store is modelled from the spec.
-/

/-- A configuration value: integer, boolean, or text. -/
inductive SValue where
  | int : Int → SValue
  | bool : Bool → SValue
  | str : String → SValue
deriving Repr, DecidableEq

/-- Modelled from the spec: the built-in default table of the missing
`ConfigManager` — `{DEFAULT_PAGE_SIZE: 20, ENABLE_ANALYTICS: True,
RATE_LIMIT: 100}`. -/
def defaultSettings : List (String × SValue) :=
  [("DEFAULT_PAGE_SIZE", .int 20), ("ENABLE_ANALYTICS", .bool true),
   ("RATE_LIMIT", .int 100)]

/-- The settings mapping held by the store (a Python dict, modelled as an
association list with unique keys maintained by upsert). -/
structure ConfigState where
  settings : List (String × SValue)
deriving Repr, DecidableEq

/-- Modelled from the spec: the store as first created, holding the default
table. -/
def configStart : ConfigState := ⟨defaultSettings⟩

/-- Dict upsert: replace the value at an existing key, else append. -/
def upsert : List (String × SValue) → String → SValue → List (String × SValue)
  | [], n, v => [(n, v)]
  | (k, w) :: rest, n, v =>
    if k = n then (n, v) :: rest else (k, w) :: upsert rest n v

/-- Modelled from the spec: `get_setting(name)` of the missing
`ConfigManager` — pure lookup, absent names give the absent sentinel. -/
def get_setting (s : ConfigState) (name : String) : Option SValue :=
  alookup s.settings name

/-- Modelled from the spec: `set_setting(name, value)` of the missing
`ConfigManager` — unconditional upsert, any name accepted. -/
def set_setting (s : ConfigState) (name : String) (v : SValue) : ConfigState :=
  ⟨upsert s.settings name v⟩

/-- Modelled from the spec: `reset_to_defaults()` of the missing
`ConfigManager` — replaces the mapping with a fresh copy of the default
table. -/
def reset_to_defaults (_s : ConfigState) : ConfigState := ⟨defaultSettings⟩

/-- Apply a list of `set_setting` operations in order. -/
def applySets : List (String × SValue) → ConfigState → ConfigState
  | [], s => s
  | (n, v) :: rest, s => applySets rest (set_setting s n v)

/-- Both sinks receive the same one appended record, or neither changes. -/
def bothOrNeither (s s2 : LoggerState) : Prop :=
  (∃ r, s2.fileSink = s.fileSink ++ [r] ∧ s2.consoleSink = s.consoleSink ++ [r])
  ∨ (s2.fileSink = s.fileSink ∧ s2.consoleSink = s.consoleSink)

/-!
## Helper lemmas
-/

lemma logMessage_emit (sev : Nat) (f : List (String × FValue)) (s : LoggerState)
    (h : s.threshold ≤ sev) :
    logMessage sev f s =
      { s with fileSink := s.fileSink ++ [⟨f, sev⟩],
               consoleSink := s.consoleSink ++ [⟨f, sev⟩] } := by
  simp [logMessage, h]

lemma logMessage_skip (sev : Nat) (f : List (String × FValue)) (s : LoggerState)
    (h : sev < s.threshold) : logMessage sev f s = s := by
  simp [logMessage, Nat.not_le.mpr h]

lemma logMessage_bothOrNeither (sev : Nat) (f : List (String × FValue))
    (s : LoggerState) : bothOrNeither s (logMessage sev f s) := by
  by_cases h : s.threshold ≤ sev
  · exact Or.inl ⟨⟨f, sev⟩, by simp [logMessage_emit sev f s h]⟩
  · exact Or.inr (by simp [logMessage_skip sev f s (Nat.not_le.mp h)])

lemma logMessage_mem_severity (sev : Nat) (f : List (String × FValue))
    (s : LoggerState) :
    (∀ r ∈ (logMessage sev f s).fileSink, r ∈ s.fileSink ∨ r.severity = sev) ∧
    (∀ r ∈ (logMessage sev f s).consoleSink,
        r ∈ s.consoleSink ∨ r.severity = sev) := by
  by_cases h : s.threshold ≤ sev
  · rw [logMessage_emit sev f s h]
    refine ⟨?_, ?_⟩
    all_goals
      intro r hr
      rcases List.mem_append.mp hr with h2 | h2
      · exact Or.inl h2
      · exact Or.inr (by rw [List.mem_singleton.mp h2])
  · rw [logMessage_skip sev f s (Nat.not_le.mp h)]
    exact ⟨fun r hr => Or.inl hr, fun r hr => Or.inl hr⟩

lemma apiSeverity_cases (sc : Option Int) :
    apiSeverity sc = INFO ∨ apiSeverity sc = ERROR := by
  cases sc with
  | none => exact Or.inl rfl
  | some c =>
    by_cases h : c ≠ 0 ∧ 400 ≤ c
    · exact Or.inr (by simp [apiSeverity, h])
    · exact Or.inl (by simp [apiSeverity, h])

lemma INFO_le_apiSeverity (sc : Option Int) : INFO ≤ apiSeverity sc := by
  rcases apiSeverity_cases sc with h | h <;> simp [h, INFO, ERROR]

lemma apiSeverity_eq_ERROR (sc : Option Int) :
    apiSeverity sc = ERROR ↔ ∃ c, sc = some c ∧ 400 ≤ c := by
  cases sc with
  | none => simp [apiSeverity, INFO, ERROR]
  | some c =>
    constructor
    · intro h
      by_cases hc : c ≠ 0 ∧ 400 ≤ c
      · exact ⟨c, rfl, hc.2⟩
      · simp [apiSeverity, hc, INFO, ERROR] at h
    · rintro ⟨c2, hc2, h4⟩
      obtain rfl : c = c2 := by injection hc2
      have hc0 : c ≠ 0 := by omega
      simp [apiSeverity, hc0, h4]

lemma constructMany_spec (n : Nat) (hn : 1 ≤ n) :
    (constructMany n).2 = ⟨some 0, 1, 1⟩ ∧ ∀ r ∈ (constructMany n).1, r = 0 := by
  induction n with
  | zero => omega
  | succ m ih =>
    rcases Nat.eq_zero_or_pos m with hm | hm
    · subst hm
      refine ⟨rfl, ?_⟩
      intro r hr
      simpa [constructMany, freshClass, singletonNew] using hr
    · obtain ⟨hs, hr⟩ := ih hm
      constructor
      · simp [constructMany, hs, singletonNew]
      · intro r hmem
        simp only [constructMany, hs, singletonNew, List.mem_append,
          List.mem_singleton] at hmem
        rcases hmem with h | h
        · exact hr r h
        · exact h

lemma alookup_upsert_ne (l : List (String × SValue)) (k n : String) (v : SValue)
    (h : n ≠ k) : alookup (upsert l k v) n = alookup l n := by
  induction l with
  | nil => simp [upsert, alookup, Ne.symm h]
  | cons p rest ih =>
    obtain ⟨k2, v2⟩ := p
    by_cases hk : k2 = k
    · subst hk
      simp [upsert, alookup, Ne.symm h]
    · by_cases hn : k2 = n
      · subst hn
        simp [upsert, alookup, hk]
      · simp [upsert, alookup, hk, hn, ih]

lemma get_setting_start_absent (n : String)
    (hdef : n ∉ defaultSettings.map Prod.fst) :
    get_setting configStart n = none := by
  simp only [defaultSettings, List.map, List.mem_cons, List.not_mem_nil,
    or_false, not_or] at hdef
  obtain ⟨h1, h2, h3⟩ := hdef
  simp [get_setting, configStart, alookup, defaultSettings,
    Ne.symm h1, Ne.symm h2, Ne.symm h3]

lemma applySets_absent (ops : List (String × SValue)) (n : String)
    (hset : n ∉ ops.map Prod.fst) :
    ∀ s : ConfigState, get_setting s n = none →
      get_setting (applySets ops s) n = none := by
  induction ops with
  | nil =>
    intro s h
    simpa [applySets] using h
  | cons p rest ih =>
    obtain ⟨k, v⟩ := p
    intro s h
    simp only [List.map, List.mem_cons, not_or] at hset
    obtain ⟨hk, hrest⟩ := hset
    simp only [applySets]
    refine ih hrest _ ?_
    simpa [get_setting, set_setting, alookup_upsert_ne _ _ _ _ hk] using h

/-!
## The claims
-/

/-- Claim C1: every sequence of constructions `LoggerSingleton()` within one
process returns reference-identical instances (the one allocated first, id 0),
and `_initialize` runs exactly once, on the first construction only: after
any `n ≥ 1` constructions the run count is 1, and a construction that finds
an existing instance changes nothing. -/
theorem loggerSingleton_identity_init_once (n : Nat) (hn : 1 ≤ n) :
    (∀ r ∈ (constructMany n).1, r = 0) ∧
    (constructMany n).2.initCount = 1 ∧
    (constructMany 1).2.initCount = 1 ∧
    (∀ s : NewState, ∀ i, s.inst = some i → singletonNew s = (i, s)) := by
  obtain ⟨hs, hr⟩ := constructMany_spec n hn
  refine ⟨hr, by rw [hs], by decide, ?_⟩
  intro s i hi
  simp [singletonNew, hi]

/-- Witness for C1 at `n = 5`. -/
theorem loggerSingleton_identity_init_once_witness :
    (∀ r ∈ (constructMany 5).1, r = 0) ∧
    (constructMany 5).2.initCount = 1 ∧
    (constructMany 1).2.initCount = 1 ∧
    (∀ s : NewState, ∀ i, s.inst = some i → singletonNew s = (i, s)) :=
  loggerSingleton_identity_init_once 5 (by decide)

/-- Claim C2: `log_api_request` selects error severity exactly when a status
code is present and at least 400, and informational severity otherwise; in
particular a call with status 404 emits one error-severity record, to both
sinks, containing the method, endpoint, user and `status_code = 404` fields. -/
theorem log_api_request_severity_routing (m e ts : String) (u : Option User)
    (sc : Option Int) :
    (apiSeverity sc = ERROR ↔ ∃ c, sc = some c ∧ 400 ≤ c) ∧
    (¬ (∃ c, sc = some c ∧ 400 ≤ c) → apiSeverity sc = INFO) ∧
    (log_api_request m e u (some 404) ts initLogger).fileSink =
      [⟨apiFields m e u (some 404) ts, ERROR⟩] ∧
    (log_api_request m e u (some 404) ts initLogger).consoleSink =
      [⟨apiFields m e u (some 404) ts, ERROR⟩] ∧
    alookup (apiFields m e u (some 404) ts) "method" = some (.str m) ∧
    alookup (apiFields m e u (some 404) ts) "endpoint" = some (.str e) ∧
    alookup (apiFields m e u (some 404) ts) "user" =
      some (.str (userField u)) ∧
    alookup (apiFields m e u (some 404) ts) "status_code" =
      some (.optInt (some 404)) := by
  have h404 : apiSeverity (some 404) = ERROR := by decide
  refine ⟨apiSeverity_eq_ERROR sc, ?_, ?_, ?_, rfl, rfl, rfl, rfl⟩
  · intro hne
    rcases apiSeverity_cases sc with h | h
    · exact h
    · exact absurd ((apiSeverity_eq_ERROR sc).mp h) hne
  · simp [log_api_request, logMessage, initLogger, apiSeverity, INFO, ERROR]
  · simp [log_api_request, logMessage, initLogger, apiSeverity, INFO, ERROR]

/-- Witness for C2 at status code 404 and no user. -/
theorem log_api_request_severity_routing_witness :
    apiSeverity (some 404) = ERROR ∧
    (log_api_request "GET" "/posts" none (some 404) "t" initLogger).fileSink =
      [⟨apiFields "GET" "/posts" none (some 404) "t", ERROR⟩] :=
  ⟨((log_api_request_severity_routing "GET" "/posts" "t" none
      (some 404)).1).mpr ⟨404, rfl, by decide⟩,
   (log_api_request_severity_routing "GET" "/posts" "t" none (some 404)).2.2.1⟩

/-- Claim C5: in the records of `log_api_request` and `log_security_event`
the user field is the caller's username when a user is supplied and the
string Anonymous when none is. -/
theorem user_field_anonymous_or_username (m e ts et dt : String)
    (u : Option User) (sc : Option Int) :
    alookup (apiFields m e u sc ts) "user" = some (.str (userField u)) ∧
    alookup (secFields et dt u ts) "user" = some (.str (userField u)) ∧
    userField none = "Anonymous" ∧
    ∀ usr : User, userField (some usr) = usr.username :=
  ⟨rfl, rfl, rfl, fun _ => rfl⟩

/-- Claim C6: every record appended by `log_security_event` has warning
severity and every record appended by `log_performance_metric` has
informational severity, in every logger state — neither operation ever
selects a different severity. -/
theorem security_warning_performance_info (et dt ts mn : String)
    (u : Option User) (v : FValue) (d : Option String) (s : LoggerState) :
    (∀ r ∈ (log_security_event et dt u ts s).fileSink,
        r ∈ s.fileSink ∨ r.severity = WARNING) ∧
    (∀ r ∈ (log_security_event et dt u ts s).consoleSink,
        r ∈ s.consoleSink ∨ r.severity = WARNING) ∧
    (∀ r ∈ (log_performance_metric mn v d ts s).fileSink,
        r ∈ s.fileSink ∨ r.severity = INFO) ∧
    (∀ r ∈ (log_performance_metric mn v d ts s).consoleSink,
        r ∈ s.consoleSink ∨ r.severity = INFO) :=
  ⟨(logMessage_mem_severity WARNING (secFields et dt u ts) s).1,
   (logMessage_mem_severity WARNING (secFields et dt u ts) s).2,
   (logMessage_mem_severity INFO (perfFields mn v d ts) s).1,
   (logMessage_mem_severity INFO (perfFields mn v d ts) s).2⟩

/-- Witness for C6: the record appended by a concrete security-event call on
the freshly initialized logger carries warning severity. -/
theorem security_warning_performance_info_witness :
    (⟨secFields "login_failed" "bad token" none "t", WARNING⟩ : Record)
        ∈ initLogger.fileSink ∨
    (Record.mk (secFields "login_failed" "bad token" none "t")
        WARNING).severity = WARNING :=
  (security_warning_performance_info "login_failed" "bad token" "t" "lat"
      none (.int 1) none initLogger).1
    ⟨secFields "login_failed" "bad token" none "t", WARNING⟩ (by decide)

/-- Counterexample to claim C7 as stated: in the reachable logger state
obtained by `set_log_level(logging.ERROR)` after initialization, a
`log_performance_metric` call writes to neither sink, so it is not the case
that every call writes to both sinks in every reachable state. -/
theorem log_call_writes_neither_sink :
    (log_performance_metric "latency" (.int 5) none "t"
        (set_log_level ERROR initLogger)).fileSink = [] ∧
    (log_performance_metric "latency" (.int 5) none "t"
        (set_log_level ERROR initLogger)).consoleSink = [] := by
  decide

/-- Claim C7 (amended): every call to any of the three log operations writes
identically to both sinks: either the same one record is appended to the file
sink and to the console sink, or neither sink changes; there is no state in
which only one sink is written. In the initial state every call writes to
both sinks. -/
theorem log_calls_write_both_sinks_together (m e et dt ts mn : String)
    (u : Option User) (sc : Option Int) (v : FValue) (d : Option String)
    (s : LoggerState) :
    bothOrNeither s (log_api_request m e u sc ts s) ∧
    bothOrNeither s (log_security_event et dt u ts s) ∧
    bothOrNeither s (log_performance_metric mn v d ts s) ∧
    (log_api_request m e u sc ts initLogger).fileSink =
      [⟨apiFields m e u sc ts, apiSeverity sc⟩] ∧
    (log_api_request m e u sc ts initLogger).consoleSink =
      [⟨apiFields m e u sc ts, apiSeverity sc⟩] ∧
    (log_security_event et dt u ts initLogger).fileSink =
      [⟨secFields et dt u ts, WARNING⟩] ∧
    (log_security_event et dt u ts initLogger).consoleSink =
      [⟨secFields et dt u ts, WARNING⟩] ∧
    (log_performance_metric mn v d ts initLogger).fileSink =
      [⟨perfFields mn v d ts, INFO⟩] ∧
    (log_performance_metric mn v d ts initLogger).consoleSink =
      [⟨perfFields mn v d ts, INFO⟩] := by
  refine ⟨logMessage_bothOrNeither _ _ _, logMessage_bothOrNeither _ _ _,
    logMessage_bothOrNeither _ _ _, ?_, ?_, ?_, ?_, ?_, ?_⟩
  · simp [log_api_request, logMessage, initLogger, INFO_le_apiSeverity sc]
  · simp [log_api_request, logMessage, initLogger, INFO_le_apiSeverity sc]
  · simp [log_security_event, logMessage, initLogger, INFO, WARNING]
  · simp [log_security_event, logMessage, initLogger, INFO, WARNING]
  · simp [log_performance_metric, logMessage, initLogger]
  · simp [log_performance_metric, logMessage, initLogger]

/-- Claim C8: `set_log_level(L)` leaves already-emitted records in both sinks
untouched, and afterwards each of the three log calls is suppressed entirely
when its record's severity is below `L` and emitted (to both sinks) when its
severity is at or above `L`. -/
theorem set_log_level_filters_subsequent (L : Nat) (m e et dt ts mn : String)
    (u : Option User) (sc : Option Int) (v : FValue) (d : Option String)
    (s : LoggerState) :
    (set_log_level L s).fileSink = s.fileSink ∧
    (set_log_level L s).consoleSink = s.consoleSink ∧
    (apiSeverity sc < L →
      log_api_request m e u sc ts (set_log_level L s) = set_log_level L s) ∧
    (L ≤ apiSeverity sc →
      (log_api_request m e u sc ts (set_log_level L s)).fileSink =
        s.fileSink ++ [⟨apiFields m e u sc ts, apiSeverity sc⟩] ∧
      (log_api_request m e u sc ts (set_log_level L s)).consoleSink =
        s.consoleSink ++ [⟨apiFields m e u sc ts, apiSeverity sc⟩]) ∧
    (WARNING < L →
      log_security_event et dt u ts (set_log_level L s) = set_log_level L s) ∧
    (L ≤ WARNING →
      (log_security_event et dt u ts (set_log_level L s)).fileSink =
        s.fileSink ++ [⟨secFields et dt u ts, WARNING⟩] ∧
      (log_security_event et dt u ts (set_log_level L s)).consoleSink =
        s.consoleSink ++ [⟨secFields et dt u ts, WARNING⟩]) ∧
    (INFO < L →
      log_performance_metric mn v d ts (set_log_level L s) = set_log_level L s) ∧
    (L ≤ INFO →
      (log_performance_metric mn v d ts (set_log_level L s)).fileSink =
        s.fileSink ++ [⟨perfFields mn v d ts, INFO⟩] ∧
      (log_performance_metric mn v d ts (set_log_level L s)).consoleSink =
        s.consoleSink ++ [⟨perfFields mn v d ts, INFO⟩]) := by
  have hth : (set_log_level L s).threshold = L := rfl
  refine ⟨rfl, rfl, ?_, ?_, ?_, ?_, ?_, ?_⟩
  · intro h
    exact logMessage_skip _ _ _ (by rw [hth]; exact h)
  · intro h
    constructor <;> simp [log_api_request, logMessage, set_log_level, h]
  · intro h
    exact logMessage_skip _ _ _ (by rw [hth]; exact h)
  · intro h
    constructor <;> simp [log_security_event, logMessage, set_log_level, h]
  · intro h
    exact logMessage_skip _ _ _ (by rw [hth]; exact h)
  · intro h
    constructor <;> simp [log_performance_metric, logMessage, set_log_level, h]

/-- Witness for C8 at `L = ERROR`: an informational performance record is
suppressed, while an API record with status 500 (error severity) is emitted. -/
theorem set_log_level_filters_subsequent_witness :
    log_performance_metric "lat" (.int 5) none "t"
        (set_log_level ERROR initLogger) = set_log_level ERROR initLogger ∧
    (log_api_request "GET" "/p" none (some 500) "t"
        (set_log_level ERROR initLogger)).fileSink =
      initLogger.fileSink ++
        [⟨apiFields "GET" "/p" none (some 500) "t", apiSeverity (some 500)⟩] :=
  ⟨(set_log_level_filters_subsequent ERROR "GET" "/p" "a" "b" "t" "lat" none
      (some 500) (.int 5) none initLogger).2.2.2.2.2.2.1 (by decide),
   ((set_log_level_filters_subsequent ERROR "GET" "/p" "a" "b" "t" "lat" none
      (some 500) (.int 5) none initLogger).2.2.2.1 (by decide)).1⟩

/-- Counterexample to claim C9 as stated: under the interleaving in which
both threads pass the `if not cls._instance` test before either assigns,
two instances are constructed (`nextId = 2`), `_initialize` runs twice, and
the two callers receive distinct instances — so construction is not guarded
by any mutual-exclusion mechanism. -/
theorem race_constructs_two_instances :
    (runSched racySched raceStart).shared.nextId = 2 ∧
    (runSched racySched raceStart).shared.inits = [0, 1] ∧
    (runSched racySched raceStart).t1.ret = some 1 ∧
    (runSched racySched raceStart).t2.ret = some 0 ∧
    (runSched racySched raceStart).t1.ret ≠ (runSched racySched raceStart).t2.ret := by
  decide

/-- Claim C9 (amended): construction of the logging singleton is guarded only
by an unsynchronized check-then-set on the class attribute. When the two
first accesses are serialized, exactly one instance is constructed and both
callers receive it; but there exists an interleaving of two simultaneous
first accesses under which two distinct instances are constructed and the two
callers receive distinct instances. -/
theorem singleton_unsynchronized_check_then_set :
    ((runSched serialSched raceStart).shared.nextId = 1 ∧
     (runSched serialSched raceStart).t1.ret = some 0 ∧
     (runSched serialSched raceStart).t2.ret = some 0) ∧
    ∃ sched : List Bool,
      (runSched sched raceStart).shared.nextId = 2 ∧
      (runSched sched raceStart).t1.ret ≠ (runSched sched raceStart).t2.ret :=
  ⟨by decide, racySched, by decide⟩

/-- Claim C10: immediately after initialization the emission threshold is the
informational level, so in the initial state records of all three categories
(the informational, warning and error paths of the three log calls) are
emitted to both sinks. -/
theorem default_threshold_is_info (m e et dt ts mn : String) (u : Option User)
    (sc : Option Int) (v : FValue) (d : Option String) :
    initLogger.threshold = INFO ∧
    (log_api_request m e u sc ts initLogger).fileSink.length = 1 ∧
    (log_api_request m e u sc ts initLogger).consoleSink.length = 1 ∧
    (log_security_event et dt u ts initLogger).fileSink.length = 1 ∧
    (log_security_event et dt u ts initLogger).consoleSink.length = 1 ∧
    (log_performance_metric mn v d ts initLogger).fileSink.length = 1 ∧
    (log_performance_metric mn v d ts initLogger).consoleSink.length = 1 := by
  refine ⟨rfl, ?_, ?_, ?_, ?_, ?_, ?_⟩
  · simp [log_api_request, logMessage, initLogger, INFO_le_apiSeverity sc]
  · simp [log_api_request, logMessage, initLogger, INFO_le_apiSeverity sc]
  · simp [log_security_event, logMessage, initLogger, INFO, WARNING]
  · simp [log_security_event, logMessage, initLogger, INFO, WARNING]
  · simp [log_performance_metric, logMessage, initLogger]
  · simp [log_performance_metric, logMessage, initLogger]

/-- Claim C3: from every store state — including states with extra keys added
by `set_setting` since the last reset — `reset_to_defaults()` leaves the
store holding exactly `{DEFAULT_PAGE_SIZE: 20, ENABLE_ANALYTICS: True,
RATE_LIMIT: 100}` and no other keys. -/
theorem reset_restores_exact_defaults (s : ConfigState) :
    (reset_to_defaults s).settings = defaultSettings ∧
    get_setting (reset_to_defaults s) "DEFAULT_PAGE_SIZE" = some (.int 20) ∧
    get_setting (reset_to_defaults s) "ENABLE_ANALYTICS" = some (.bool true) ∧
    get_setting (reset_to_defaults s) "RATE_LIMIT" = some (.int 100) ∧
    ∀ n : String, n ≠ "DEFAULT_PAGE_SIZE" → n ≠ "ENABLE_ANALYTICS" →
      n ≠ "RATE_LIMIT" → get_setting (reset_to_defaults s) n = none := by
  refine ⟨rfl, rfl, rfl, rfl, ?_⟩
  intro n h1 h2 h3
  simp [get_setting, reset_to_defaults, alookup, defaultSettings,
    Ne.symm h1, Ne.symm h2, Ne.symm h3]

/-- Witness for C3: after adding an extra key and resetting, the extra key is
gone and the defaults are back. -/
theorem reset_restores_exact_defaults_witness :
    get_setting (reset_to_defaults (set_setting configStart "EXTRA" (.int 7)))
        "DEFAULT_PAGE_SIZE" = some (.int 20) ∧
    get_setting (reset_to_defaults (set_setting configStart "EXTRA" (.int 7)))
        "EXTRA" = none :=
  ⟨(reset_restores_exact_defaults
      (set_setting configStart "EXTRA" (.int 7))).2.1,
   (reset_restores_exact_defaults
      (set_setting configStart "EXTRA" (.int 7))).2.2.2.2 "EXTRA"
      (by decide) (by decide) (by decide)⟩

/-- Claim C4: for every name never passed to `set_setting` and absent from
the default table, `get_setting` returns the absent sentinel `none`
(`get_setting` is total by construction: it returns an `Option` value on
every name and state). -/
theorem get_setting_absent_is_none (ops : List (String × SValue)) (n : String)
    (hset : n ∉ ops.map Prod.fst)
    (hdef : n ∉ defaultSettings.map Prod.fst) :
    get_setting (applySets ops configStart) n = none :=
  applySets_absent ops n hset configStart (get_setting_start_absent n hdef)

/-- Witness for C4: after one unrelated `set_setting`, a never-set name
yields `none`. -/
theorem get_setting_absent_is_none_witness :
    get_setting (applySets [("NEW_SETTING", .str "test_value")] configStart)
        "DOES_NOT_EXIST" = none :=
  get_setting_absent_is_none [("NEW_SETTING", .str "test_value")]
    "DOES_NOT_EXIST" (by decide) (by decide)

end Connectly
